import Mathlib

/-!
Verification of the recommendation resolution pipeline of the
content-based movie recommendation backend (`recommend.py`, `app.py`,
`services/movie_apis.py`).

Shallow embedding conventions:
* A pandas DataFrame row becomes a `Movie` record; the catalog DataFrame
  with its column set becomes a `Catalog` (column presence is modelled by
  the `hasVoteAverage` / `hasVoteCount` flags, since the code branches on
  `'vote_average' in self.movies_df.columns` etc.).  The DataFrame is
  assumed to carry a clean `RangeIndex`, so index labels coincide with
  positions (this is how `find_movie_in_dataset`'s `index[0]` result is
  consumed by `iloc` in `get_recommendations`).
* A per-cell `NaN` title is modelled by `Option.none`; the `title` column
  itself always exists (the code reads it unconditionally).
* Python float ratings are modelled as `Nat`: every claim about ratings
  concerns only their relative order, never float arithmetic.
* `str.lower` / `str.strip` are modelled character-wise for the ASCII
  range, which covers every string the claims touch.
* Network calls are modelled by passing the provider responses (or the
  whole provider functions) as explicit arguments.
-/

/-- Character-level model of Python `str.lower` for ASCII letters. -/
def lowerChar (ch : Char) : Char :=
  if 'A' ≤ ch && ch ≤ 'Z' then Char.ofNat (ch.toNat + 32) else ch

/-- Whitespace predicate used by the model of Python `str.strip`. -/
def isWs (ch : Char) : Bool :=
  ch == ' ' || ch == '\t' || ch == '\n' || ch == '\r'

/-- Model of Python `str.lower()`. -/
def toLowerStr (s : String) : String :=
  String.mk (s.data.map lowerChar)

/-- Model of Python `str.strip()` on a character list. -/
def trimChars (l : List Char) : List Char :=
  ((l.dropWhile isWs).reverse.dropWhile isWs).reverse

/-- Model of `movie_name.lower().strip()` (and of the pandas
`.str.lower().str.strip()` pipeline applied to stored titles). -/
def normalizeTitle (s : String) : String :=
  String.mk (trimChars (toLowerStr s).data)

/-- Model of `needle.isPrefixOf hay` on raw characters, used to build the
substring test of Python's `in` operator. -/
def leadsWith : List Char → List Char → Bool
  | [], _ => true
  | _ :: _, [] => false
  | a :: as, b :: bs => a == b && leadsWith as bs

/-- Model of Python's substring operator `needle in hay`. -/
def substrB (needle : List Char) : List Char → Bool
  | [] => needle.isEmpty
  | c :: rest => leadsWith needle (c :: rest) || substrB needle rest

/-- Row of the preprocessed catalog DataFrame (`movies_preprocessed.pkl`).
`title` is `none` for a `NaN` cell. -/
structure Movie where
  title : Option String
  overview : String
  genres : String
  releaseDate : String
  voteAverage : Nat
  voteCount : Nat
  posterPath : String
deriving DecidableEq, Inhabited

/-- State of a loaded `MovieRecommender`: the catalog DataFrame, which
optional columns it has, the KMeans model's stored training labels
(`kmeans_model.labels_`), and the composite
`kmeans_model.predict(tfidf_matrix[idx:idx+1])[0]` — since the embedding
of a row is a pure function of the row, the composite is modelled as a
function of the row position. -/
structure Catalog where
  movies : List Movie
  hasVoteAverage : Bool
  hasVoteCount : Bool
  hasKmeans : Bool
  labels : List Nat
  predict : Nat → Nat

/-- Normalized external provider record, as built by `search_movie_tmdb` /
`search_movie_omdb` (the provider-specific id key `tmdb_id`/`imdb_id` is
dropped: no claim mentions it). -/
structure ExtInfo where
  title : String
  overview : String
  genres : String
  releaseDate : String
  voteAverage : Nat
  posterPath : String
  source : String
deriving DecidableEq, Inhabited

/-- External lookup environment: results of `search_movie_tmdb` and
`search_movie_omdb` per query string. -/
structure Env where
  tmdb : String → Option ExtInfo
  omdb : String → Option ExtInfo

/-- Recommendation dictionary built by `recommend_for_existing_movie` and
`get_popular_movies` (`method` is the `recommendation_method` key). -/
structure RecInfo where
  title : Option String
  overview : String
  genres : String
  releaseDate : String
  voteAverage : Nat
  posterPath : String
  similarityScore : Nat
  method : String
deriving DecidableEq, Inhabited

/-- Searched-movie dictionary of `get_recommendations`. -/
structure SearchedMovie where
  title : Option String
  overview : String
  genres : String
  releaseDate : String
  voteAverage : Nat
  posterPath : String
  source : String
deriving DecidableEq, Inhabited

/-- Result dictionary of `get_recommendations`. -/
structure RecResult where
  status : String
  searchedMovie : Option SearchedMovie
  recommendations : List RecInfo
  message : String
deriving DecidableEq

/-- Position of the first list element satisfying `p`; models
`df[mask].index[0]` on a RangeIndex. -/
def firstIdx {α : Type} (p : α → Bool) : List α → Option Nat
  | [] => none
  | m :: ms =>
    if p m then some 0 else
      match firstIdx p ms with
      | some j => some (j + 1)
      | none => none

/-- Exact-match predicate of `find_movie_in_dataset` line 153:
`title.str.lower().str.strip() == movie_name_lower`; a `NaN` title
compares unequal. -/
def exactMatch (qn : String) (m : Movie) : Bool :=
  match m.title with
  | some t => normalizeTitle t == qn
  | none => false

/-- Substring-match predicate of `find_movie_in_dataset` line 156:
`title.str.lower().str.contains(movie_name_lower, na=False, regex=False)`
— note the stored side is lowered but not stripped. -/
def looseMatch (qn : String) (m : Movie) : Bool :=
  match m.title with
  | some t => substrB qn.data (toLowerStr t).data
  | none => false

/-- Model of `MovieRecommender.find_movie_in_dataset`. -/
def find_movie_in_dataset (c : Catalog) (q : String) : Option Nat :=
  let qn := normalizeTitle q
  match firstIdx (exactMatch qn) c.movies with
  | some i => some i
  | none => firstIdx (looseMatch qn) c.movies

/-- Stable descending insertion by `key`: an earlier element stays in
front of any later element with an equal key. -/
def insertDesc {α : Type} (key : α → Nat) (x : α) : List α → List α
  | [] => [x]
  | y :: ys => if key y ≤ key x then x :: y :: ys else y :: insertDesc key x ys

/-- Stable descending sort by `key`. -/
def stableSortDesc {α : Type} (key : α → Nat) : List α → List α
  | [] => []
  | x :: xs => insertDesc key x (stableSortDesc key xs)

/-- Model of pandas `DataFrame.nlargest(n, column)` with the default
`keep='first'`: descending order, ties kept in original row order. -/
def nlargest {α : Type} (key : α → Nat) (n : Nat) (xs : List α) : List α :=
  (stableSortDesc key xs).take n

/-- Recommendation dictionary shared by both ranking branches:
`float(movie.get('vote_average', 0))` yields `0` when the column is
absent, `similarity_score` is the literal `0.0`. -/
def mkRec (c : Catalog) (method : String) (m : Movie) : RecInfo :=
  { title := m.title
    overview := m.overview
    genres := m.genres
    releaseDate := m.releaseDate
    voteAverage := if c.hasVoteAverage then m.voteAverage else 0
    posterPath := m.posterPath
    similarityScore := 0
    method := method }

/-- Rows selected by `get_popular_movies` before dictionary building:
with both columns, `nlargest(n*2, 'vote_average')` then
`nlargest(n, 'vote_count')`; with only a rating column,
`nlargest(n, 'vote_average')`; otherwise `head(n)`. -/
def popularRows (c : Catalog) (n : Nat) : List Movie :=
  if c.hasVoteAverage && c.hasVoteCount then
    nlargest (fun m => m.voteCount) n
      (nlargest (fun m => m.voteAverage) (n * 2) c.movies)
  else if c.hasVoteAverage then
    nlargest (fun m => m.voteAverage) n c.movies
  else
    c.movies.take n

/-- Model of `MovieRecommender.get_popular_movies`. -/
def get_popular_movies (c : Catalog) (n : Nat) : List RecInfo :=
  (popularRows c n).map (mkRec c "popular")

/-- Candidate rows of the cluster branch:
`movies_df[kmeans_model.labels_ == movie_cluster].drop(index[idx])`,
where `movie_cluster` is the live `kmeans_model.predict` result on the
queried row's embedding. -/
def clusterCandidates (c : Catalog) (idx : Nat) : List (Nat × Movie) :=
  c.movies.enum.filter
    (fun p => (c.labels.getD p.1 0 == c.predict idx) && p.1 != idx)

/-- Model of `MovieRecommender.recommend_for_existing_movie`.  The second
guard models the `except Exception` fallback: with a label array whose
length disagrees with the catalog, or an out-of-range row, the pandas
boolean mask / matrix slice raises and the code degrades to
`get_popular_movies`. -/
def recommend_for_existing_movie (c : Catalog) (idx : Nat) (n : Nat) : List RecInfo :=
  if c.hasKmeans = false then get_popular_movies c n
  else if c.labels.length = c.movies.length ∧ idx < c.movies.length then
    (if c.hasVoteAverage then
        nlargest (fun p => p.2.voteAverage) n (clusterCandidates c idx)
      else (clusterCandidates c idx).take n).map
      (fun p => mkRec c "cluster_based" p.2)
  else get_popular_movies c n

/-- Python `self.search_movie_tmdb(movie_name) or self.search_movie_omdb(movie_name)`. -/
def externalLookup (env : Env) (q : String) : Option ExtInfo :=
  match env.tmdb q with
  | some v => some v
  | none => env.omdb q

/-- Searched-movie dictionary built from a catalog row
(`movie.get('title', movie_name)` returns the cell value — possibly
`NaN` — because the column exists). -/
def searchedFromRow (m : Movie) (c : Catalog) : SearchedMovie :=
  { title := m.title
    overview := m.overview
    genres := m.genres
    releaseDate := m.releaseDate
    voteAverage := if c.hasVoteAverage then m.voteAverage else 0
    posterPath := m.posterPath
    source := "dataset" }

/-- Searched-movie dictionary taken from a provider record. -/
def searchedFromExt (info : ExtInfo) : SearchedMovie :=
  { title := some info.title
    overview := info.overview
    genres := info.genres
    releaseDate := info.releaseDate
    voteAverage := info.voteAverage
    posterPath := info.posterPath
    source := info.source }

/-- Candidate list of `get_recommendations` before the genre filter:
`2*count` cluster candidates on a local hit, `2*count` popular rows on an
external hit, `count` popular rows otherwise. -/
def preFilterCandidates (c : Catalog) (env : Env) (q : String) (n : Nat) : List RecInfo :=
  match find_movie_in_dataset c q with
  | some idx => recommend_for_existing_movie c idx (n * 2)
  | none =>
    match externalLookup env q with
    | some _ => get_popular_movies c (n * 2)
    | none => get_popular_movies c n

/-- Genre-preference predicate: `any(genre.lower() in rec.get('genres', '').lower()
for genre in preference_genres)`. -/
def genreMatch (pref : List String) (r : RecInfo) : Bool :=
  pref.any (fun g => substrB (toLowerStr g).data (toLowerStr r.genres).data)

/-- Genre filter of `get_recommendations` lines 255-258:
`recs = filtered_recs if filtered_recs else recs`. -/
def genreFilter (pref : List String) (recs : List RecInfo) : List RecInfo :=
  if pref.isEmpty then recs
  else if (recs.filter (genreMatch pref)).isEmpty then recs
  else recs.filter (genreMatch pref)

/-- Model of `MovieRecommender.get_recommendations`. -/
def get_recommendations (c : Catalog) (env : Env) (q : String) (n : Nat)
    (pref : List String) : RecResult :=
  let status :=
    match find_movie_in_dataset c q with
    | some _ => "success"
    | none =>
      match externalLookup env q with
      | some _ => "success"
      | none => "not_found"
  let searched : Option SearchedMovie :=
    match find_movie_in_dataset c q with
    | some idx => some (searchedFromRow (c.movies.getD idx default) c)
    | none => (externalLookup env q).map searchedFromExt
  let msg :=
    match find_movie_in_dataset c q, externalLookup env q with
    | some _, _ => "Movie found in dataset"
    | none, some info => "Movie found via " ++ info.source ++ " API"
    | none, none => "Movie \"" ++ q ++ "\" not found"
  { status := status
    searchedMovie := searched
    recommendations := (genreFilter pref (preFilterCandidates c env q n)).take n
    message := msg }

/-- Count clamp of `app.py` `api_search`:
`if not isinstance(n, int) or not (1 <= n <= 50): n = 10`. -/
def clampCount (n : Int) : Nat :=
  if 1 ≤ n ∧ n ≤ 50 then n.toNat else 10

/-- Model of the `/api/search` handler's call into the core (after its
`movie_name` validation): clamp the count, then resolve. -/
def api_search (c : Catalog) (env : Env) (q : String) (n : Int)
    (pref : List String) : RecResult :=
  get_recommendations c env q (clampCount n) pref

/-- Outcome of one `requests.get` call: either a raised
`requests.exceptions.RequestException` (connection error, timeout, …) or
a response with a status code and a body. -/
inductive HttpOutcome (β : Type) where
  | transportError
  | response (status : Nat) (body : β)

/-- One element of the TMDB search `results` list; only its `id` is read
(`movie['id']`), elements are assumed to carry one. -/
structure TmdbHit where
  id : Nat
deriving DecidableEq

/-- Body of a TMDB search response, as seen through `response.json()` and
`data['results']`: either the JSON text fails to decode
(`requests.exceptions.JSONDecodeError`, a `RequestException` subclass in
requests ≥ 2.27, hence caught), or it is an object without a `results`
key, or an object with a `results` list. -/
inductive TmdbSearchBody where
  | decodeError
  | missingResults
  | withResults (rs : List TmdbHit)
deriving DecidableEq

/-- Parsed field values of a TMDB detail object; `none` models an absent
key, resolved through `detailed_movie.get(..., default)`. -/
structure TmdbDetailsObj where
  title : Option String
  overview : Option String
  genreNames : List String
  releaseDate : Option String
  voteAverage : Option Nat
  posterPath : Option String
deriving DecidableEq

/-- Body of a TMDB detail response. -/
inductive TmdbDetailsBody where
  | decodeError
  | obj (d : TmdbDetailsObj)
deriving DecidableEq

/-- Model of `' '.join(names)`. -/
def joinSpace : List String → String
  | [] => ""
  | [s] => s
  | s :: rest => s ++ " " ++ joinSpace rest

/-- Model of `MovieRecommender._get_tmdb_movie_details`: every failure
path returns `None`; all dictionary reads use `.get` with defaults, so a
well-decoded object never raises. -/
def getTmdbMovieDetails (_movieId : Nat) (resp : HttpOutcome TmdbDetailsBody) :
    Option ExtInfo :=
  match resp with
  | .transportError => none
  | .response status body =>
    if status == 200 then
      match body with
      | .decodeError => none
      | .obj d =>
        some { title := d.title.getD ""
               overview := d.overview.getD ""
               genres := joinSpace d.genreNames
               releaseDate := d.releaseDate.getD ""
               voteAverage := d.voteAverage.getD 0
               posterPath := d.posterPath.getD ""
               source := "TMDB" }
    else none

/-- Model of `MovieRecommender.search_movie_tmdb`.  The `try` block
catches only `requests.exceptions.RequestException`, so the `KeyError`
raised by `data['results']` on a 200 object without that key escapes to
the caller: that path is an `Except.error`.  `detailsResp` supplies the
outcome of the follow-up detail request per movie id. -/
def search_movie_tmdb (hasKey : Bool) (searchResp : HttpOutcome TmdbSearchBody)
    (detailsResp : Nat → HttpOutcome TmdbDetailsBody) :
    Except String (Option ExtInfo) :=
  if hasKey = false then .ok none
  else
    match searchResp with
    | .transportError => .ok none
    | .response status body =>
      if status == 200 then
        match body with
        | .decodeError => .ok none
        | .missingResults => .error "KeyError: results"
        | .withResults [] => .ok none
        | .withResults (hit :: _) => .ok (getTmdbMovieDetails hit.id (detailsResp hit.id))
      else .ok none

/-- Body of an OMDB response, as seen through `response.json()` and
`data.get('Response')`: either the JSON text fails to decode
(`requests.exceptions.JSONDecodeError`, caught), or it decodes to a
non-dict value (list, string, number, null — `data.get` then raises
`AttributeError`, which the `except requests.exceptions.RequestException`
clause does not catch), or it is an object.  Field reads on an object
all use `.get` with defaults, so a decoded object is safe; `respValue`
is `data.get('Response')` and `imdbRating` is the numeric value of the
rating string (`none` models absent / `'N/A'` / unparsable, which
`_parse_imdb_rating` maps to `0.0`). -/
inductive OmdbBody where
  | decodeError
  | nonObj
  | obj (respValue : Option String) (title : Option String) (plot : Option String)
      (genre : Option String) (year : Option String) (imdbRating : Option Nat)
      (poster : Option String) (imdbId : Option String)
deriving DecidableEq

/-- Model of `MovieRecommender.search_movie_omdb`.  The `try` block
catches only `requests.exceptions.RequestException`, so the
`AttributeError` raised by `data.get('Response')` on a 200 payload that
decodes to a non-dict escapes to the caller: that path is an
`Except.error`. -/
def search_movie_omdb (movieName : String) (hasKey : Bool)
    (resp : HttpOutcome OmdbBody) : Except String (Option ExtInfo) :=
  if hasKey = false then .ok none
  else
    match resp with
    | .transportError => .ok none
    | .response status body =>
      if status == 200 then
        match body with
        | .decodeError => .ok none
        | .nonObj => .error "AttributeError: get"
        | .obj respValue title plot genre year imdbRating poster _ =>
          if respValue == some "True" then
            .ok (some { title := title.getD movieName
                        overview := plot.getD ""
                        genres := (genre.getD "").replace ", " " "
                        releaseDate := year.getD ""
                        voteAverage := imdbRating.getD 0
                        posterPath := poster.getD ""
                        source := "OMDB" })
          else .ok none
      else .ok none

/-- One call through the `functools.lru_cache(maxsize=100)` wrapper of a
provider search: the cache is an association list in most-recently-used
first order, keyed by the exact argument string.  A hit moves the entry
to the front and performs no network call; a miss performs one network
call (`fetch`), inserts the entry in front and evicts the
least-recently-used entry beyond capacity 100.  Returns the result, the
new cache state, and the number of network calls performed (0 or 1). -/
def cachedLookup (fetch : String → Option ExtInfo)
    (st : List (String × Option ExtInfo)) (q : String) :
    Option ExtInfo × List (String × Option ExtInfo) × Nat :=
  match st.lookup q with
  | some v => (v, (q, v) :: st.filter (fun e => e.1 != q), 0)
  | none =>
    let v := fetch q
    (v, ((q, v) :: st).take 100, 1)

/-- Total network calls of two consecutive cached calls starting from an
empty cache. -/
def twoCallCost (fetch : String → Option ExtInfo) (q1 q2 : String) : Nat :=
  let r1 := cachedLookup fetch [] q1
  let r2 := cachedLookup fetch r1.2.1 q2
  r1.2.2 + r2.2.2

/-- Sample catalog rows used by concrete witnesses and counterexamples. -/
def mIncep : Movie :=
  { title := some "Inception", overview := "", genres := "Action Sci-Fi",
    releaseDate := "2010", voteAverage := 9, voteCount := 10, posterPath := "" }

/-- Second sample row: lower rating, higher vote count. -/
def mMatrix : Movie :=
  { title := some "The Matrix", overview := "", genres := "Action",
    releaseDate := "1999", voteAverage := 8, voteCount := 100, posterPath := "" }

/-- Sample two-row catalog with both optional columns and a KMeans model
whose prediction agrees with the stored labels. -/
def sampleCatalog : Catalog :=
  { movies := [mIncep, mMatrix], hasVoteAverage := true, hasVoteCount := true,
    hasKmeans := true, labels := [0, 0], predict := fun _ => 0 }

/-- Catalog whose stored label for row 0 disagrees with the live KMeans
prediction on row 0's embedding. -/
def driftCatalog : Catalog :=
  { movies := [mIncep, mMatrix], hasVoteAverage := true, hasVoteCount := true,
    hasKmeans := true, labels := [0, 1], predict := fun _ => 1 }

/-- Environment in which both providers miss. -/
def emptyEnv : Env := { tmdb := fun _ => none, omdb := fun _ => none }

/-- Sample provider record. -/
def extSample : ExtInfo :=
  { title := "Zed", overview := "", genres := "Drama", releaseDate := "2020",
    voteAverage := 7, posterPath := "", source := "TMDB" }

/-- Environment in which the primary provider hits. -/
def tmdbEnv : Env := { tmdb := fun _ => some extSample, omdb := fun _ => none }

/-- Concrete recommendation record produced by the cluster branch of
`sampleCatalog` for the query `"Inception"`. -/
def wRec : RecInfo :=
  { title := some "The Matrix", overview := "", genres := "Action",
    releaseDate := "1999", voteAverage := 8, posterPath := "",
    similarityScore := 0, method := "cluster_based" }

/-! Helper lemmas about the sorting, first-index and filtering models. -/

theorem mem_insertDesc {α : Type} (key : α → Nat) (x a : α) :
    ∀ l : List α, a ∈ insertDesc key x l ↔ a = x ∨ a ∈ l := by
  intro l
  induction l with
  | nil => simp [insertDesc]
  | cons y ys ih =>
    simp only [insertDesc]
    split
    · simp [List.mem_cons]
    · simp only [List.mem_cons, ih]
      tauto

theorem pairwise_insertDesc {α : Type} (key : α → Nat) (x : α) :
    ∀ l : List α, List.Pairwise (fun a b => key b ≤ key a) l →
      List.Pairwise (fun a b => key b ≤ key a) (insertDesc key x l) := by
  intro l
  induction l with
  | nil => intro _; simp [insertDesc]
  | cons y ys ih =>
    intro h
    rw [List.pairwise_cons] at h
    obtain ⟨hy, hys⟩ := h
    simp only [insertDesc]
    split
    · rename_i hle
      refine List.Pairwise.cons ?_ (List.Pairwise.cons hy hys)
      intro b hb
      rcases List.mem_cons.mp hb with rfl | hb'
      · exact hle
      · exact le_trans (hy b hb') hle
    · rename_i hgt
      refine List.Pairwise.cons ?_ (ih hys)
      intro b hb
      rcases (mem_insertDesc key x b ys).mp hb with rfl | hb'
      · exact le_of_not_le hgt
      · exact hy b hb'

theorem pairwise_stableSortDesc {α : Type} (key : α → Nat) :
    ∀ l : List α, List.Pairwise (fun a b => key b ≤ key a) (stableSortDesc key l) := by
  intro l
  induction l with
  | nil => simp [stableSortDesc]
  | cons x xs ih => exact pairwise_insertDesc key x _ ih

theorem mem_stableSortDesc {α : Type} (key : α → Nat) (a : α) :
    ∀ l : List α, a ∈ stableSortDesc key l ↔ a ∈ l := by
  intro l
  induction l with
  | nil => simp [stableSortDesc]
  | cons x xs ih =>
    simp only [stableSortDesc, mem_insertDesc, ih, List.mem_cons]

theorem pairwise_nlargest {α : Type} (key : α → Nat) (n : Nat) (l : List α) :
    List.Pairwise (fun a b => key b ≤ key a) (nlargest key n l) :=
  List.Pairwise.sublist (List.take_sublist n _) (pairwise_stableSortDesc key l)

theorem mem_nlargest {α : Type} (key : α → Nat) (n : Nat) (a : α) (l : List α)
    (h : a ∈ nlargest key n l) : a ∈ l :=
  (mem_stableSortDesc key a l).mp (List.mem_of_mem_take h)

theorem length_nlargest_le {α : Type} (key : α → Nat) (n : Nat) (l : List α) :
    (nlargest key n l).length ≤ n := by
  simp [nlargest, List.length_take]

theorem firstIdx_some_spec {α : Type} (p : α → Bool) (d : α) :
    ∀ (l : List α) (j : Nat), firstIdx p l = some j →
      j < l.length ∧ p (l.getD j d) = true ∧ ∀ k, k < j → p (l.getD k d) = false := by
  intro l
  induction l with
  | nil => intro j h; simp [firstIdx] at h
  | cons m ms ih =>
    intro j h
    simp only [firstIdx] at h
    cases hm : p m with
    | true =>
      rw [hm] at h
      simp at h
      subst h
      exact ⟨Nat.succ_pos _, by simpa using hm, fun k hk => absurd hk (Nat.not_lt_zero k)⟩
    | false =>
      rw [hm, if_neg Bool.false_ne_true] at h
      cases hf : firstIdx p ms with
      | none => rw [hf] at h; cases h
      | some j' =>
        rw [hf] at h
        cases h
        obtain ⟨h1, h2, h3⟩ := ih j' hf
        refine ⟨Nat.succ_lt_succ h1, by simpa using h2, ?_⟩
        intro k hk
        cases k with
        | zero => simpa using hm
        | succ k' =>
          simpa using h3 k' (Nat.lt_of_succ_lt_succ hk)

theorem firstIdx_le_of_found {α : Type} (p : α → Bool) (d : α) :
    ∀ (l : List α) (i : Nat), i < l.length → p (l.getD i d) = true →
      ∃ j, firstIdx p l = some j ∧ j ≤ i := by
  intro l
  induction l with
  | nil => intro i hi; simp at hi
  | cons m ms ih =>
    intro i hi hp
    simp only [firstIdx]
    cases hm : p m with
    | true => exact ⟨0, by simp, Nat.zero_le i⟩
    | false =>
      cases i with
      | zero =>
        rw [List.getD_cons_zero, hm] at hp
        cases hp
      | succ i' =>
        obtain ⟨j, hj, hle⟩ := ih i' (Nat.lt_of_succ_lt_succ hi) (by simpa using hp)
        refine ⟨j + 1, ?_, Nat.succ_le_succ hle⟩
        rw [if_neg Bool.false_ne_true, hj]

theorem firstIdx_none_of_all {α : Type} (p : α → Bool) :
    ∀ l : List α, (∀ m ∈ l, p m = false) → firstIdx p l = none := by
  intro l
  induction l with
  | nil => intro _; rfl
  | cons m ms ih =>
    intro h
    simp only [firstIdx]
    rw [if_neg (by simp [h m (List.mem_cons_self m ms)]),
      ih (fun a ha => h a (List.mem_cons_of_mem m ha))]

theorem firstIdx_congr {α : Type} (p p' : α → Bool) :
    ∀ l : List α, (∀ m ∈ l, p m = p' m) → firstIdx p l = firstIdx p' l := by
  intro l
  induction l with
  | nil => intro _; rfl
  | cons m ms ih =>
    intro h
    simp only [firstIdx, h m (List.mem_cons_self m ms),
      ih (fun a ha => h a (List.mem_cons_of_mem m ha))]

theorem mem_enumFrom_spec {α : Type} (d : α) :
    ∀ (l : List α) (k : Nat) (q : Nat × α), q ∈ l.enumFrom k →
      k ≤ q.1 ∧ q.1 - k < l.length ∧ l.getD (q.1 - k) d = q.2 := by
  intro l
  induction l with
  | nil => intro k q h; simp [List.enumFrom] at h
  | cons a as ih =>
    intro k q h
    simp only [List.enumFrom] at h
    rcases List.mem_cons.mp h with rfl | h'
    · simp
    · obtain ⟨h1, h2, h3⟩ := ih (k + 1) q h'
      have hk : k ≤ q.1 := le_trans (Nat.le_succ k) h1
      have hs : q.1 - k = (q.1 - (k + 1)) + 1 := by omega
      refine ⟨hk, ?_, ?_⟩
      · rw [hs]; simpa using Nat.succ_lt_succ h2
      · rw [hs, List.getD_cons_succ]; exact h3

theorem mem_enum_spec {α : Type} (d : α) (l : List α) (q : Nat × α)
    (h : q ∈ l.enum) : q.1 < l.length ∧ l.getD q.1 d = q.2 := by
  have := mem_enumFrom_spec d l 0 q (by simpa [List.enum] using h)
  simpa using this.2

theorem genreFilter_subset (pref : List String) (recs : List RecInfo) (r : RecInfo)
    (h : r ∈ genreFilter pref recs) : r ∈ recs := by
  unfold genreFilter at h
  split at h
  · exact h
  · split at h
    · exact h
    · exact List.mem_of_mem_filter h

theorem genreFilter_ne_nil (pref : List String) (recs : List RecInfo)
    (h : recs ≠ []) : genreFilter pref recs ≠ [] := by
  unfold genreFilter
  split
  · exact h
  · split
    · exact h
    · rename_i hne
      simpa [List.isEmpty_iff] using hne

theorem take_ne_nil_of_ne_nil {α : Type} (n : Nat) (l : List α)
    (hn : n ≠ 0) (hl : l ≠ []) : l.take n ≠ [] := by
  cases l with
  | nil => exact absurd rfl hl
  | cons a as =>
    cases n with
    | zero => exact absurd rfl hn
    | succ n' => simp [List.take]

theorem get_popular_zero (c : Catalog) : get_popular_movies c 0 = [] := by
  simp [get_popular_movies, popularRows, nlargest]

theorem recommend_zero (c : Catalog) (idx : Nat) :
    recommend_for_existing_movie c idx 0 = [] := by
  simp [recommend_for_existing_movie, get_popular_zero, nlargest]

theorem preFilter_zero (c : Catalog) (env : Env) (q : String) :
    preFilterCandidates c env q 0 = [] := by
  unfold preFilterCandidates
  cases find_movie_in_dataset c q with
  | some idx => exact recommend_zero c idx
  | none =>
    cases externalLookup env q with
    | some v => exact get_popular_zero c
    | none => exact get_popular_zero c

theorem mem_get_popular (c : Catalog) (n : Nat) (r : RecInfo)
    (h : r ∈ get_popular_movies c n) : ∃ m, r = mkRec c "popular" m := by
  unfold get_popular_movies at h
  obtain ⟨m, _, rfl⟩ := List.mem_map.mp h
  exact ⟨m, rfl⟩

theorem mem_recommend_shape (c : Catalog) (idx : Nat) (n : Nat) (r : RecInfo)
    (h : r ∈ recommend_for_existing_movie c idx n) :
    (∃ m, r = mkRec c "cluster_based" m) ∨ ∃ m, r = mkRec c "popular" m := by
  unfold recommend_for_existing_movie at h
  split at h
  · exact Or.inr (mem_get_popular _ _ _ h)
  · split at h
    · obtain ⟨p, _, rfl⟩ := List.mem_map.mp h
      exact Or.inl ⟨p.2, rfl⟩
    · exact Or.inr (mem_get_popular _ _ _ h)

theorem mem_preFilter_shape (c : Catalog) (env : Env) (q : String) (n : Nat)
    (r : RecInfo) (h : r ∈ preFilterCandidates c env q n) :
    (∃ m, r = mkRec c "cluster_based" m) ∨ ∃ m, r = mkRec c "popular" m := by
  unfold preFilterCandidates at h
  cases hf : find_movie_in_dataset c q with
  | some idx =>
    rw [hf] at h
    exact mem_recommend_shape _ _ _ _ h
  | none =>
    rw [hf] at h
    cases he : externalLookup env q with
    | some v => rw [he] at h; exact Or.inr (mem_get_popular _ _ _ h)
    | none => rw [he] at h; exact Or.inr (mem_get_popular _ _ _ h)

theorem lookup_filter_length (q : String) (v : Option ExtInfo) :
    ∀ st : List (String × Option ExtInfo), st.lookup q = some v →
      (st.filter (fun e => e.1 != q)).length + 1 ≤ st.length := by
  intro st
  induction st with
  | nil => intro h; cases h
  | cons e rest ih =>
    obtain ⟨k, w⟩ := e
    intro h
    cases hq : q == k with
    | true =>
      have hk : (k != q) = false := by
        have : q = k := eq_of_beq hq
        subst this
        simp
      have hfil : ((k, w) :: rest).filter (fun e => e.1 != q) =
          rest.filter (fun e => e.1 != q) := by
        simp [List.filter, hk]
      rw [hfil]
      exact Nat.succ_le_succ (List.length_filter_le _ _)
    | false =>
      rw [List.lookup, hq] at h
      have hkq : (k == q) = false := by
        cases hkq : k == q with
        | false => rfl
        | true =>
          have : k = q := eq_of_beq hkq
          subst this
          simp at hq
      have hk : (k != q) = true := by simp [bne, hkq]
      have hfil : ((k, w) :: rest).filter (fun e => e.1 != q) =
          (k, w) :: rest.filter (fun e => e.1 != q) := by
        simp [List.filter, hk]
      rw [hfil]
      simpa [List.length_cons] using Nat.succ_le_succ (ih h)

/-! Claim theorems. -/

/-- C1, counterexample: the claim's status enum values never occur.  On a
local catalog hit the status is `"success"`, not `"found_local"`, and on
an external-provider hit it is `"success"`, not `"found_external"`. -/
theorem c1_status_cex :
    (get_recommendations sampleCatalog emptyEnv "Inception" 5 []).status = "success"
    ∧ (get_recommendations sampleCatalog emptyEnv "Inception" 5 []).status ≠ "found_local"
    ∧ (find_movie_in_dataset sampleCatalog "Inception").isSome = true
    ∧ (get_recommendations sampleCatalog tmdbEnv "zzz" 5 []).status = "success"
    ∧ (get_recommendations sampleCatalog tmdbEnv "zzz" 5 []).status ≠ "found_external"
    ∧ find_movie_in_dataset sampleCatalog "zzz" = none
    ∧ (tmdbEnv.tmdb "zzz").isSome = true := by
  refine ⟨by decide, by decide, by decide, by decide, by decide, by decide, by decide⟩

/-- C1 (amended): the status field is `"success"` whenever the title
matched the local catalog or an external provider and `"not_found"` when
both missed; the branch that produced the result is identified by the
message field (`"Movie found in dataset"` vs `"Movie found via <provider>
API"`), not by the status. -/
theorem c1_status_amended (c : Catalog) (env : Env) (q : String) (n : Nat)
    (pref : List String) :
    (get_recommendations c env q n pref).status =
      (if (find_movie_in_dataset c q).isSome then "success"
       else if (externalLookup env q).isSome then "success" else "not_found")
    ∧ (get_recommendations c env q n pref).message =
      (match find_movie_in_dataset c q, externalLookup env q with
       | some _, _ => "Movie found in dataset"
       | none, some info => "Movie found via " ++ info.source ++ " API"
       | none, none => "Movie \"" ++ q ++ "\" not found") := by
  unfold get_recommendations
  cases hf : find_movie_in_dataset c q with
  | some idx => simp
  | none =>
    cases he : externalLookup env q with
    | some info => simp
    | none => simp

/-- C2 (confirmed): with a non-empty preferred-genre list and a non-empty
pre-filter candidate list, the returned recommendation list is non-empty;
moreover if no candidate matches any preferred genre, the filter is
discarded and the unfiltered candidate list (truncated) is returned. -/
theorem c2_fallback_nonempty (c : Catalog) (env : Env) (q : String) (n : Nat)
    (pref : List String) (h1 : preFilterCandidates c env q n ≠ []) (h3 : pref ≠ []) :
    (get_recommendations c env q n pref).recommendations ≠ []
    ∧ ((preFilterCandidates c env q n).filter (genreMatch pref) = [] →
        (get_recommendations c env q n pref).recommendations =
          (preFilterCandidates c env q n).take n) := by
  have hn : n ≠ 0 := by
    intro h0
    subst h0
    exact h1 (preFilter_zero c env q)
  constructor
  · show (genreFilter pref (preFilterCandidates c env q n)).take n ≠ []
    exact take_ne_nil_of_ne_nil n _ hn (genreFilter_ne_nil pref _ h1)
  · intro hfe
    have hp : pref.isEmpty = false := by
      cases pref with
      | nil => exact absurd rfl h3
      | cons a as => rfl
    show (genreFilter pref (preFilterCandidates c env q n)).take n = _
    have hg : genreFilter pref (preFilterCandidates c env q n) =
        preFilterCandidates c env q n := by
      unfold genreFilter
      rw [hp, hfe]
      simp
    rw [hg]

/-- C2, witness at a concrete catalog and a genre list matching nothing. -/
theorem c2_fallback_nonempty_witness :
    (get_recommendations sampleCatalog emptyEnv "Inception" 2
      ["Nonexistent"]).recommendations ≠ [] :=
  (c2_fallback_nonempty sampleCatalog emptyEnv "Inception" 2 ["Nonexistent"]
    (by decide) (by decide)).1

/-- C5 (confirmed): for valid counts `N ∈ [1,50]` the recommendation list
has length at most `N`; an out-of-range count is clamped and the call
behaves exactly as `count = 10`. -/
theorem c5_count_clamped (c : Catalog) (env : Env) (q : String) (pref : List String)
    (N : Int) :
    (api_search c env q N pref).recommendations.length ≤ clampCount N
    ∧ (1 ≤ N ∧ N ≤ 50 →
        ((api_search c env q N pref).recommendations.length : Int) ≤ N)
    ∧ (¬(1 ≤ N ∧ N ≤ 50) →
        api_search c env q N pref = api_search c env q 10 pref) := by
  have hlen : ∀ k : Nat, (get_recommendations c env q k pref).recommendations.length ≤ k := by
    intro k
    show ((genreFilter pref (preFilterCandidates c env q k)).take k).length ≤ k
    simp [List.length_take]
  refine ⟨hlen (clampCount N), ?_, ?_⟩
  · intro hv
    have hc : clampCount N = N.toNat := by rw [clampCount, if_pos hv]
    have h1 : (api_search c env q N pref).recommendations.length ≤ clampCount N :=
      hlen (clampCount N)
    rw [hc] at h1
    calc ((api_search c env q N pref).recommendations.length : Int)
        ≤ (N.toNat : Int) := Int.ofNat_le.mpr h1
      _ = N := Int.toNat_of_nonneg (le_trans (by norm_num) hv.1)
  · intro hnv
    unfold api_search
    have h3 : clampCount N = 10 := by rw [clampCount, if_neg hnv]
    have h2 : clampCount 10 = 10 := by decide
    rw [h3, h2]

/-- C5, witness: a valid count bounds the list length, an invalid count
behaves as the default 10. -/
theorem c5_count_clamped_witness :
    (api_search sampleCatalog emptyEnv "Inception" 3 []).recommendations.length ≤ 3
    ∧ api_search sampleCatalog emptyEnv "Inception" 99 [] =
        api_search sampleCatalog emptyEnv "Inception" 10 [] := by
  constructor
  · have h := (c5_count_clamped sampleCatalog emptyEnv "Inception" [] 3).1
    have hc : clampCount 3 = 3 := by decide
    rw [hc] at h
    exact h
  · exact (c5_count_clamped sampleCatalog emptyEnv "Inception" [] 99).2.2 (by decide)

/-- C3, counterexample: with both a rating and a vote-count column the
popularity ranking is NOT ordered by rating descending — on a catalog
with ratings 9 and 8 (vote counts 10 and 100) the returned order is the
8-rated row first, because the second `nlargest` re-sorts the top-rated
rows by vote count. -/
theorem c3_popular_order_cex :
    (popularRows sampleCatalog 2).map (fun m => m.voteAverage) = [8, 9]
    ∧ ¬ List.Pairwise (fun a b => b.voteAverage ≤ a.voteAverage)
        (popularRows sampleCatalog 2)
    ∧ sampleCatalog.hasVoteAverage = true
    ∧ sampleCatalog.hasVoteCount = true := by
  refine ⟨by decide, by decide, rfl, rfl⟩

/-- C3 (amended): when both the rating and vote-count columns are
available, the popularity ranking draws its rows from the `2n`
highest-rated rows but returns them ordered by vote count descending
(ties in catalog order), not by rating; with only a rating column it is
ordered by rating descending; with neither column it is the first `n`
rows in catalog order; the result never exceeds `n` rows. -/
theorem c3_popular_order_amended (c : Catalog) (n : Nat) :
    (c.hasVoteAverage = true → c.hasVoteCount = true →
      List.Pairwise (fun a b => b.voteCount ≤ a.voteCount) (popularRows c n)
      ∧ ∀ m ∈ popularRows c n, m ∈ nlargest (fun x => x.voteAverage) (n * 2) c.movies)
    ∧ (c.hasVoteAverage = true → c.hasVoteCount = false →
      List.Pairwise (fun a b => b.voteAverage ≤ a.voteAverage) (popularRows c n))
    ∧ (c.hasVoteAverage = false → popularRows c n = c.movies.take n)
    ∧ (popularRows c n).length ≤ n
    ∧ get_popular_movies c n = (popularRows c n).map (mkRec c "popular") := by
  refine ⟨?_, ?_, ?_, ?_, rfl⟩
  · intro hva hvc
    have hcond : (c.hasVoteAverage && c.hasVoteCount) = true := by
      rw [hva, hvc]
      rfl
    constructor
    · rw [popularRows, if_pos hcond]
      exact pairwise_nlargest _ _ _
    · intro m hm
      rw [popularRows, if_pos hcond] at hm
      exact mem_nlargest _ _ _ _ hm
  · intro hva hvc
    have hcond : (c.hasVoteAverage && c.hasVoteCount) = false := by
      rw [hva, hvc]
      rfl
    rw [popularRows, if_neg (by simp [hcond]), if_pos hva]
    exact pairwise_nlargest _ _ _
  · intro hva
    have hcond : (c.hasVoteAverage && c.hasVoteCount) = false := by
      rw [hva]
      rfl
    rw [popularRows, if_neg (by simp [hcond]), if_neg (by simp [hva])]
  · rw [popularRows]
    split
    · exact length_nlargest_le _ _ _
    · split
      · exact length_nlargest_le _ _ _
      · simp [List.length_take]

/-- C3, witness for the amended theorem at a concrete catalog with both
columns. -/
theorem c3_popular_order_amended_witness :
    List.Pairwise (fun a b => b.voteCount ≤ a.voteCount) (popularRows sampleCatalog 2) :=
  ((c3_popular_order_amended sampleCatalog 2).1 rfl rfl).1

/-- C6, counterexample: on a catalog whose stored label for the queried
row (0) differs from the live KMeans prediction on that row's embedding,
the candidate list contains a row (row 1) whose stored cluster label
differs from the queried row's stored label — the code filters by the
live `kmeans_model.predict` output, not the stored assignment. -/
theorem c6_cluster_label_cex :
    (1, mMatrix) ∈ clusterCandidates driftCatalog 0
    ∧ driftCatalog.labels.getD 1 0 ≠ driftCatalog.labels.getD 0 0
    ∧ driftCatalog.labels.getD 0 0 ≠ driftCatalog.predict 0 := by
  refine ⟨by decide, by decide, by decide⟩

/-- C6 (amended): every entry of the cluster ranker's candidate list is a
catalog row distinct from the queried row whose STORED cluster label
equals the cluster label predicted live for the queried row's embedding
(`kmeans_model.predict`, which can disagree with the queried row's stored
label); the queried row itself never appears. -/
theorem c6_cluster_candidates_amended (c : Catalog) (idx : Nat) (p : Nat × Movie)
    (hp : p ∈ clusterCandidates c idx) :
    p.1 ≠ idx ∧ c.labels.getD p.1 0 = c.predict idx
    ∧ p.1 < c.movies.length ∧ c.movies.getD p.1 default = p.2 := by
  unfold clusterCandidates at hp
  obtain ⟨henum, hcond⟩ := List.mem_filter.mp hp
  have hb := mem_enum_spec default c.movies p henum
  have hc1 : (c.labels.getD p.1 0 == c.predict idx) = true ∧ (p.1 != idx) = true := by
    simpa [Bool.and_eq_true] using hcond
  refine ⟨?_, ?_, hb.1, hb.2⟩
  · have := hc1.2
    simp only [bne_iff_ne, ne_eq] at this
    exact this
  · have := hc1.1
    simp only [beq_iff_eq] at this
    exact this

/-- C6, witness for the amended theorem at a concrete candidate. -/
theorem c6_cluster_candidates_amended_witness :
    (1 : Nat) ≠ 0 ∧ driftCatalog.labels.getD 1 0 = driftCatalog.predict 0
    ∧ 1 < driftCatalog.movies.length
    ∧ driftCatalog.movies.getD 1 default = mMatrix :=
  c6_cluster_candidates_amended driftCatalog 0 (1, mMatrix) (by decide)

theorem substrB_nil_left (l : List Char) : substrB [] l = true := by
  cases l <;> rfl

theorem looseMatch_empty (m : Movie) : looseMatch "" m = m.title.isSome := by
  unfold looseMatch
  cases m.title with
  | none => rfl
  | some t => exact substrB_nil_left (toLowerStr t).data

theorem find_eq_of_exact (c : Catalog) (q : String) (j : Nat)
    (hj : firstIdx (exactMatch (normalizeTitle q)) c.movies = some j) :
    find_movie_in_dataset c q = some j := by
  simp only [find_movie_in_dataset]
  rw [hj]

theorem find_eq_loose_of_no_exact (c : Catalog) (q : String)
    (h : firstIdx (exactMatch (normalizeTitle q)) c.movies = none) :
    find_movie_in_dataset c q = firstIdx (looseMatch (normalizeTitle q)) c.movies := by
  simp only [find_movie_in_dataset]
  rw [h]

/-- C4, counterexample: a 200 TMDB search response whose JSON object
lacks the `results` key makes `search_movie_tmdb` raise (`KeyError` from
`data['results']`), because the `except` clause catches only
`requests.exceptions.RequestException`; this malformed payload is not
converted to null. -/
theorem c4_provider_error_cex :
    search_movie_tmdb true (.response 200 .missingResults)
      (fun _ => .transportError) = .error "KeyError: results" := rfl

/-- C4 (amended): each provider lookup returns null without raising on
transport errors, non-success statuses, JSON-decode failures and empty
result sets (for OMDB: a decoded object whose `Response` field is not
`"True"`) — but neither provider is exception-free on every malformed
200 payload: TMDB raises `KeyError` on a decoded object without the
`results` key (see the counterexample), and OMDB raises `AttributeError`
on a payload that decodes to a non-dict value, because only
`requests.exceptions.RequestException` is caught. -/
theorem c4_provider_error_amended (hk : Bool) (status : Nat) (movieName : String)
    (details : Nat → HttpOutcome TmdbDetailsBody) :
    search_movie_tmdb hk .transportError details = .ok none
    ∧ (status ≠ 200 →
        ∀ body, search_movie_tmdb hk (.response status body) details = .ok none)
    ∧ search_movie_tmdb hk (.response 200 .decodeError) details = .ok none
    ∧ search_movie_tmdb hk (.response 200 (.withResults [])) details = .ok none
    ∧ search_movie_omdb movieName hk .transportError = .ok none
    ∧ (status ≠ 200 →
        ∀ body, search_movie_omdb movieName hk (.response status body) = .ok none)
    ∧ search_movie_omdb movieName hk (.response 200 .decodeError) = .ok none
    ∧ (∀ rv title plot genre year imdbRating poster imdbId, rv ≠ some "True" →
        search_movie_omdb movieName hk (.response 200
          (.obj rv title plot genre year imdbRating poster imdbId)) = .ok none)
    ∧ search_movie_omdb movieName true (.response 200 .nonObj)
        = .error "AttributeError: get" := by
  refine ⟨?_, ?_, ?_, ?_, ?_, ?_, ?_, ?_, rfl⟩
  · cases hk <;> rfl
  · intro hst body
    have h200 : (status == 200) = false := beq_eq_false_iff_ne.mpr hst
    cases hk with
    | false => rfl
    | true => simp [search_movie_tmdb, h200]
  · cases hk <;> rfl
  · cases hk <;> rfl
  · cases hk <;> rfl
  · intro hst body
    have h200 : (status == 200) = false := beq_eq_false_iff_ne.mpr hst
    cases hk with
    | false => rfl
    | true => simp [search_movie_omdb, h200]
  · cases hk <;> rfl
  · intro rv title plot genre year imdbRating poster imdbId hrv
    have hfalse : (rv == some "True") = false := beq_eq_false_iff_ne.mpr hrv
    cases hk with
    | false => rfl
    | true => simp [search_movie_omdb, hfalse]

/-- C4, witness: concrete benign failures yield null for both providers
(non-success status for TMDB; non-success status and a `Response:
"False"` object for OMDB). -/
theorem c4_provider_error_amended_witness :
    search_movie_tmdb true (.response 404 .decodeError)
      (fun _ => .transportError) = .ok none
    ∧ search_movie_omdb "Inception" true (.response 500 .decodeError) = .ok none
    ∧ search_movie_omdb "Inception" true (.response 200
        (.obj (some "False") none none none none none none none)) = .ok none := by
  refine ⟨?_, ?_, ?_⟩
  · exact (c4_provider_error_amended true 404 "Inception"
      (fun _ => .transportError)).2.1 (by decide) .decodeError
  · exact (c4_provider_error_amended true 500 "Inception"
      (fun _ => .transportError)).2.2.2.2.2.1 (by decide) .decodeError
  · exact (c4_provider_error_amended true 500 "Inception"
      (fun _ => .transportError)).2.2.2.2.2.2.2.1
      (some "False") none none none none none none none (by decide)

/-- C7 (confirmed): for any catalog row with a (non-null) title, looking
up a query with the same normalized form as that title returns a row via
the exact-match step: the returned index is the first row whose
normalized stored title equals the query's (so it is at most the given
row's index, no earlier row matches exactly, and its normalized title
agrees with the given row's). -/
theorem c7_exact_lookup (c : Catalog) (q : String) (i : Nat) (t : String)
    (hi : i < c.movies.length) (ht : (c.movies.getD i default).title = some t)
    (hq : normalizeTitle q = normalizeTitle t) :
    ∃ j, find_movie_in_dataset c q = some j ∧ j ≤ i
      ∧ (∃ u, (c.movies.getD j default).title = some u
          ∧ normalizeTitle u = normalizeTitle t)
      ∧ ∀ k, k < j →
          exactMatch (normalizeTitle q) (c.movies.getD k default) = false := by
  have hpi : exactMatch (normalizeTitle q) (c.movies.getD i default) = true := by
    unfold exactMatch
    rw [ht]
    simp [hq]
  obtain ⟨j, hj, hle⟩ :=
    firstIdx_le_of_found (exactMatch (normalizeTitle q)) default c.movies i hi hpi
  obtain ⟨hjl, hpj, hpk⟩ :=
    firstIdx_some_spec (exactMatch (normalizeTitle q)) default c.movies j hj
  refine ⟨j, find_eq_of_exact c q j hj, hle, ?_, hpk⟩
  unfold exactMatch at hpj
  cases hu : (c.movies.getD j default).title with
  | none => rw [hu] at hpj; cases hpj
  | some u =>
    rw [hu] at hpj
    refine ⟨u, rfl, ?_⟩
    have hequ : normalizeTitle u = normalizeTitle q := by simpa using hpj
    rw [hequ, hq]

/-- C7, witness: querying the normalized form of a concrete row's title. -/
theorem c7_exact_lookup_witness :
    ∃ j, find_movie_in_dataset sampleCatalog "inception" = some j ∧ j ≤ 0
      ∧ (∃ u, (sampleCatalog.movies.getD j default).title = some u
          ∧ normalizeTitle u = normalizeTitle "Inception")
      ∧ ∀ k, k < j →
          exactMatch (normalizeTitle "inception")
            (sampleCatalog.movies.getD k default) = false :=
  c7_exact_lookup sampleCatalog "inception" 0 "Inception"
    (by decide) (by decide) (by decide)

/-- C9, counterexample: on a concrete result the recommendations carry
ratings 8 and 9 but their `similarity_score` is the constant 0 for both —
the score is not populated from the rating-based ranking (nor from vector
distance); it is a hard-coded placeholder. -/
theorem c9_similarity_score_cex :
    ((get_recommendations sampleCatalog emptyEnv "zzz" 2 []).recommendations.map
      (fun r => r.similarityScore)) = [0, 0]
    ∧ ((get_recommendations sampleCatalog emptyEnv "zzz" 2 []).recommendations.map
      (fun r => r.voteAverage)) = [8, 9]
    ∧ ((get_recommendations sampleCatalog emptyEnv "zzz" 2 []).recommendations.getD 0
        default).similarityScore ≠
      ((get_recommendations sampleCatalog emptyEnv "zzz" 2 []).recommendations.getD 0
        default).voteAverage := by
  refine ⟨by decide, by decide, by decide⟩

/-- C9 (amended): every returned Recommendation carries
`similarity_score = 0` (a hard-coded placeholder populated neither from
vector distance nor from the rating used for ranking) together with a
method tag identifying the producing branch (`"cluster_based"` or
`"popular"`). -/
theorem c9_similarity_score_amended (c : Catalog) (env : Env) (q : String)
    (n : Nat) (pref : List String) (r : RecInfo)
    (hr : r ∈ (get_recommendations c env q n pref).recommendations) :
    r.similarityScore = 0 ∧ (r.method = "cluster_based" ∨ r.method = "popular") := by
  have hr' : r ∈ (genreFilter pref (preFilterCandidates c env q n)).take n := hr
  have h2 := genreFilter_subset pref _ r (List.mem_of_mem_take hr')
  rcases mem_preFilter_shape c env q n r h2 with ⟨m, rfl⟩ | ⟨m, rfl⟩
  · exact ⟨rfl, Or.inl rfl⟩
  · exact ⟨rfl, Or.inr rfl⟩

/-- C9, witness for the amended theorem at a concrete recommendation. -/
theorem c9_similarity_score_amended_witness :
    wRec.similarityScore = 0
    ∧ (wRec.method = "cluster_based" ∨ wRec.method = "popular") :=
  c9_similarity_score_amended sampleCatalog emptyEnv "Inception" 2 [] wRec (by decide)

/-- C10 (confirmed): a query whose normalized form is empty (empty or
whitespace-only title reaching the core resolver) matches every non-null
stored title in the substring step — provided no stored title itself
normalizes to empty so the exact step misses — and the resolver reports
the first row with a non-null title as a dataset hit (`status
"success"`, message `"Movie found in dataset"`), not as not-found. -/
theorem c10_empty_query (c : Catalog) (env : Env) (q : String) (n : Nat)
    (pref : List String) (j : Nat)
    (hq : normalizeTitle q = "")
    (hex : firstIdx (exactMatch "") c.movies = none)
    (hj : firstIdx (fun m => m.title.isSome) c.movies = some j) :
    find_movie_in_dataset c q = some j
    ∧ (get_recommendations c env q n pref).status = "success"
    ∧ (get_recommendations c env q n pref).searchedMovie
        = some (searchedFromRow (c.movies.getD j default) c)
    ∧ (get_recommendations c env q n pref).message = "Movie found in dataset" := by
  have h1 : firstIdx (exactMatch (normalizeTitle q)) c.movies = none := by
    rw [hq]
    exact hex
  have h2 : firstIdx (looseMatch (normalizeTitle q)) c.movies = some j := by
    rw [hq, firstIdx_congr (looseMatch "") (fun m => m.title.isSome) c.movies
      (fun m _ => looseMatch_empty m)]
    exact hj
  have hfind : find_movie_in_dataset c q = some j := by
    rw [find_eq_loose_of_no_exact c q h1]
    exact h2
  refine ⟨hfind, ?_, ?_, ?_⟩
  all_goals simp [get_recommendations, hfind]

/-- C10, witness: a whitespace-only query on a concrete catalog resolves
to its first row as a dataset hit. -/
theorem c10_empty_query_witness :
    find_movie_in_dataset sampleCatalog "   " = some 0
    ∧ (get_recommendations sampleCatalog emptyEnv "   " 3 []).status = "success"
    ∧ (get_recommendations sampleCatalog emptyEnv "   " 3 []).searchedMovie
        = some (searchedFromRow (sampleCatalog.movies.getD 0 default) sampleCatalog)
    ∧ (get_recommendations sampleCatalog emptyEnv "   " 3 []).message
        = "Movie found in dataset" :=
  c10_empty_query sampleCatalog emptyEnv "   " 3 [] 0
    (by decide) (by decide) (by decide)

/-- C8, counterexample: the lru_cache key is the raw argument string, not
a normalized form — two consecutive lookups with `" x"` and `"x"`, which
normalize identically, both go to the network (2 calls, no cache hit). -/
theorem c8_cache_key_cex :
    normalizeTitle " x" = normalizeTitle "x"
    ∧ twoCallCost (fun _ => none) " x" "x" = 2 := by
  refine ⟨by decide, by decide⟩

/-- C8 (amended): provider lookups are memoized per RAW query string
(exact string equality, not normalization) in a bounded
least-recently-used cache of 100 entries that also stores null results:
two consecutive calls with the identical query string perform exactly one
network request, a cache hit never grows the cache, and a miss never
grows it beyond 100 entries. -/
theorem c8_cache_amended (fetch : String → Option ExtInfo) (q : String)
    (st : List (String × Option ExtInfo)) (v : Option ExtInfo) :
    twoCallCost fetch q q = 1
    ∧ (cachedLookup fetch [] q).1 = fetch q
    ∧ (st.lookup q = some v → (cachedLookup fetch st q).2.1.length ≤ st.length)
    ∧ (st.lookup q = none → (cachedLookup fetch st q).2.1.length ≤ 100) := by
  refine ⟨?_, rfl, ?_, ?_⟩
  · unfold twoCallCost cachedLookup
    simp [List.lookup]
  · intro hv
    unfold cachedLookup
    rw [hv]
    simpa using lookup_filter_length q v st hv
  · intro hn
    unfold cachedLookup
    rw [hn]
    simp [List.length_take]

/-- C8, witness: one fetch for a repeated identical query, and a cache
hit does not grow a concrete one-entry cache. -/
theorem c8_cache_amended_witness :
    twoCallCost (fun _ => some extSample) "Inception" "Inception" = 1
    ∧ (cachedLookup (fun _ => some extSample)
        [("Inception", some extSample)] "Inception").2.1.length ≤ 1 := by
  constructor
  · exact (c8_cache_amended (fun _ => some extSample) "Inception" [] none).1
  · exact (c8_cache_amended (fun _ => some extSample) "Inception"
      [("Inception", some extSample)] (some extSample)).2.2.1 (by decide)
